import Mathlib

/-!
Verification of the cover-agent test-validation core.

This file gives a shallow embedding of the parts of the repository that the
claims are about:

* `UnitTestValidator.validate_test` (src/cover_agent/UnitTestValidator.py,
  lines 378-742): splicing a generated test into the test file, running the
  test command up to `num_attempts` times, checking the coverage delta, and
  committing or rolling back the file.
* the post-loop decision logic of `CoverAgent.run_test_gen`
  (src/cover_agent/CoverAgent.py, lines 198-280): the per-iteration goal
  check and the process exit codes 0 / 2 / 3.

External collaborators (the command runner, the coverage-report processor,
the LLM-backed diagnostic summarizer) are modelled as data supplied through
an `Env` record: each field is either the value the collaborator returns or
the exception it raises, mirroring exactly how `validate_test` consumes them.
Logging calls and the optional wandb `Trace` upload are treated as effect-free
(the spec scopes logging out), and filesystem writes are assumed to succeed;
the on-disk test file is the `fileContent` field of the validator state.
-/

/-! ### Python string primitives

`str.rstrip` / `lstrip` / `strip` with the default argument strip the ASCII
whitespace characters; `strip(chars)` strips every leading/trailing character
from `chars`.  `split(sep)` and `sep.join` are `String.splitOn` /
`String.intercalate`.  `needle in hay` is substring containment, true for the
empty needle.  List slicing `l[:i]` / `l[i:]` allows negative indices.
-/

/-- The whitespace characters stripped by the Python default `str.strip`
(restricted to the ASCII range; the candidate strings of this development are
ASCII). -/
def pyIsSpace (ch : Char) : Bool :=
  ch = ' ' || ch = '\t' || ch = '\n' || ch = '\r' || ch = '\x0b' || ch = '\x0c'

/-- Drop the leading characters satisfying `p` : Python `lstrip`. -/
def pyLstripWhile (p : Char → Bool) (s : String) : String :=
  String.mk (s.data.dropWhile p)

/-- Drop the trailing characters satisfying `p` : Python `rstrip`. -/
def pyRstripWhile (p : Char → Bool) (s : String) : String :=
  String.mk ((s.data.reverse.dropWhile p).reverse)

/-- Python `str.rstrip()` (default whitespace). -/
def pyRstrip (s : String) : String := pyRstripWhile pyIsSpace s

/-- Python `str.lstrip()` (default whitespace). -/
def pyLstrip (s : String) : String := pyLstripWhile pyIsSpace s

/-- Python `str.strip()` (default whitespace). -/
def pyStrip (s : String) : String := pyLstrip (pyRstrip s)

/-- Python `str.strip(c)` for a one-character `chars` argument. -/
def pyStripChar (c : Char) (s : String) : String :=
  pyLstripWhile (fun ch => ch = c) (pyRstripWhile (fun ch => ch = c) s)

/-- Does `hay` start with `needle`?  (Helper for substring containment.) -/
def pyStartsWith : List Char → List Char → Bool
  | [], _ => true
  | _ :: _, [] => false
  | a :: as, b :: bs => a = b && pyStartsWith as bs

/-- Does `needle` occur somewhere in `hay`?  (Helper for `in`.) -/
def pySubOccurs (needle : List Char) : List Char → Bool
  | [] => pyStartsWith needle []
  | h :: t => pyStartsWith needle (h :: t) || pySubOccurs needle t

/-- Python `needle in hay` on strings: substring containment. -/
def pyContains (hay needle : String) : Bool :=
  pySubOccurs needle.data hay.data

/-- Split a character list at every newline (helper for Python
`s.split("\n")`, which keeps empty pieces and returns `[""]` on the empty
string). -/
def splitNlChars : List Char → List (List Char)
  | [] => [[]]
  | c :: cs =>
    let r := splitNlChars cs
    if c = '\n' then [] :: r
    else
      match r with
      | [] => [[c]]
      | h :: t => (c :: h) :: t

/-- Python `s.split("\n")`. -/
def pySplitNl (s : String) : List String :=
  (splitNlChars s.data).map String.mk

/-- Join character-list pieces with a newline (helper for `"\n".join`). -/
def joinNlChars : List (List Char) → List Char
  | [] => []
  | [x] => x
  | x :: y :: t => x ++ '\n' :: joinNlChars (y :: t)

/-- Python `"\n".join(pieces)`. -/
def pyJoinNl (l : List String) : String :=
  String.mk (joinNlChars (l.map String.data))

/-- Python `l[:i]`: for `i < 0` the index counts from the end, clamped at 0. -/
def pyTake {α : Type} (i : Int) (l : List α) : List α :=
  if i ≥ 0 then l.take i.toNat else l.take (l.length - (-i).toNat)

/-- Python `l[i:]`: for `i < 0` the index counts from the end, clamped at 0. -/
def pyDrop {α : Type} (i : Int) (l : List α) : List α :=
  if i ≥ 0 then l.drop i.toNat else l.drop (l.length - (-i).toNat)

/-- Python truthiness of an `Optional[int]` field: `None` and `0` are falsy. -/
def pyTruthyInt : Option Int → Bool
  | none => false
  | some i => i != 0

/-! ### Data model -/

/-- One generated candidate, the argument of `validate_test`
(`generated_test.get("test_code", "")` / `.get("new_imports_code", "")`). -/
structure Candidate where
  test_code : String
  new_imports_code : String
deriving DecidableEq

/-- One entry of `self.failed_test_runs`: the dict
`{"code": generated_test, "error_message": ...}` appended on every failure
path of `validate_test`. -/
structure FailedRun where
  code : Candidate
  error_message : String
deriving DecidableEq

/-- The fields of the returned outcome dict that the claims are about.  The
remaining keys of the Python dict (`stderr`, `stdout`, `test`, `language`,
`source_file`, `original_test_file`, `processed_test_file`, the mutation
report names) are pass-through data not constrained by any claim. -/
structure Outcome where
  status : String
  reason : String
  exit_code : Option Int
deriving DecidableEq

/-- The mutable validator state that `validate_test` reads and writes,
together with the on-disk content of the test file (`fileContent`): the
instance fields of `UnitTestValidator` that the claims mention.
`current_mutation_score` is initialized to `0` in `__init__` (line 139). -/
structure VState where
  relevant_line_number_to_insert_tests_after : Option Int
  relevant_line_number_to_insert_imports_after : Option Int
  test_headers_indentation : Option Int
  num_attempts : Nat
  current_coverage : Rat
  current_mutation_score : Rat
  last_coverage_percentages : List (String × Rat)
  failed_test_runs : List FailedRun
  fileContent : String
deriving DecidableEq

/-- The external world of one `validate_test` call:
* `runOutcome` — what `Runner.run_command` does: `Except.error msg` if the
  call raises, otherwise the exit code returned on each successive attempt;
* `coverageOutcome` — what `post_process_coverage_report` does: the new
  overall fraction and the per-file percentage mapping, or the exception it
  raises;
* `errorSummary` — the string produced by `extract_error_message`, which
  catches every internal exception and returns `""` on failure, so it never
  raises. -/
structure Env where
  runOutcome : Except String (Nat → Int)
  coverageOutcome : Except String (Rat × List (String × Rat))
  errorSummary : String

/-! ### The splice (validate_test lines 413-479) -/

/-- Lines 416-426: strip the imports text, remove a surrounding pair of
double quotes, and map a literal `""` to the empty string. -/
def cleanAdditionalImports (raw : String) : String :=
  let s0 := pyStrip raw
  let s1 :=
    if s0 ≠ "" && s0.data.head? = some '\"' && s0.data.getLast? = some '\"' then
      pyStripChar '\"' s0
    else s0
  if s1 ≠ "" && s1 = "\"\"" then "" else s1

/-- Lines 436-444: re-indent the test code when `test_headers_indentation`
is truthy and the indent delta is positive, then wrap it in single
newlines.  The result is always at least `"\n\n"`, hence never empty. -/
def testCodeIndented (st : VState) (test_code : String) : String :=
  let base :=
    match st.test_headers_indentation with
    | none => test_code
    | some ni =>
      if ni ≠ 0 then
        let initial_indent : Int :=
          (test_code.data.length : Int) - ((pyLstrip test_code).data.length : Int)
        let delta := ni - initial_indent
        if delta > 0 then
          pyJoinNl ((pySplitNl test_code).map
            (fun line => String.mk (List.replicate delta.toNat ' ') ++ line))
        else test_code
      else test_code
  "\n" ++ pyStripChar '\n' base ++ "\n"

/-- Lines 446-476: the spliced line list and the number of import lines
actually injected (`len(additional_imports_lines)`, which is `0` when the
variable keeps its initial value `""`).  Imports are injected only when
the import insertion line is truthy, the cleaned imports text is non-empty, and
it is not already contained in the test-spliced content. -/
def spliceParts (st : VState) (c : Candidate) : List String × Nat :=
  let original_content := st.fileContent
  let test_code := pyRstrip c.test_code
  let additional_imports := cleanAdditionalImports c.new_imports_code
  let tci := testCodeIndented st test_code
  let n := (st.relevant_line_number_to_insert_tests_after).getD 0
  let original_content_lines := pySplitNl original_content
  let test_code_lines := pySplitNl tci
  let processed_test_lines :=
    pyTake n original_content_lines ++ test_code_lines ++ pyDrop n original_content_lines
  let processed_test := pyJoinNl processed_test_lines
  if pyTruthyInt st.relevant_line_number_to_insert_imports_after
      && additional_imports ≠ ""
      && !(pyContains processed_test additional_imports) then
    let m := (st.relevant_line_number_to_insert_imports_after).getD 0
    let ail := pySplitNl additional_imports
    (pyTake m processed_test_lines ++ ail ++ pyDrop m processed_test_lines, ail.length)
  else (processed_test_lines, 0)

/-- The content written to the test file at lines 477-479. -/
def spliceContent (st : VState) (c : Candidate) : String :=
  pyJoinNl (spliceParts st c).1

/-- The number of import lines injected by the splice (used by the
insertion-offset advancement at lines 694-696). -/
def importLinesInjected (st : VState) (c : Candidate) : Nat :=
  (spliceParts st c).2

/-- The guard of line 446: `if test_code_indented and
relevant_line_number_to_insert_tests_after:`.  When it is false the whole
body is skipped and `validate_test` falls off the end of the `try` block,
returning `None`. -/
def spliceGuard (st : VState) (c : Candidate) : Bool :=
  testCodeIndented st (pyRstrip c.test_code) ≠ ""
    && pyTruthyInt st.relevant_line_number_to_insert_tests_after

/-! ### The attempt loop (lines 482-491) -/

/-- One step of `for i in range(num_attempts): ...; if exit_code != 0: break`,
parameterized by the remaining fuel, the next attempt index, and the exit
code currently in scope (initialized to `0` at line 445).  Returns the final
`exit_code` together with the number of attempts actually run. -/
def attemptLoopGo (exits : Nat → Int) : Nat → Nat → Int → Int × Nat
  | 0, i, code => (code, i)
  | fuel + 1, i, _ =>
    if exits i ≠ 0 then (exits i, i + 1) else attemptLoopGo exits fuel (i + 1) 0

/-- The full attempt loop: run the command up to `n` times, stopping at the
first non-zero exit code. -/
def attemptLoop (exits : Nat → Int) (n : Nat) : Int × Nat :=
  attemptLoopGo exits n 0 0

/-! ### validate_test (lines 378-742) -/

/-- Line 407: `mutation_cov_increased = False`.  The mutation-testing block
that would update it (lines 536-612) is commented out in the source, so the
flag keeps this value for the whole call. -/
def mutation_cov_increased : Bool := false

/-- The first key of the new per-file mapping that is missing from the stored
`last_coverage_percentages`: at that key the logging loop of lines 698-706
raises `KeyError` when it evaluates
`self.last_coverage_percentages[key]`. -/
def firstMissingKey (newP lastP : List (String × Rat)) : Option String :=
  match newP.find? (fun kv => (lastP.lookup kv.1).isNone) with
  | some kv => some kv.1
  | none => none

/-- Lines 692-726: the accept path.  The test-insertion line is advanced by
the number of injected import lines (lines 694-696) *before* the per-file
logging loop; if that loop raises `KeyError` the outer handler (line 727)
converts it into a FAIL outcome with reason `f"Error validating test: {e}"`
(the string form of a `KeyError` is the quoted key), with no further file
write and no coverage update.  Otherwise the coverage snapshot is replaced
and PASS is returned. -/
def acceptPhase (st st1 : VState) (c : Candidate)
    (covData : Rat × List (String × Rat)) (exit_code : Int) :
    Option Outcome × VState :=
  let newLine : Option Int :=
    some ((st.relevant_line_number_to_insert_tests_after).getD 0
      + (importLinesInjected st c : Int))
  let st2 := { st1 with relevant_line_number_to_insert_tests_after := newLine }
  match firstMissingKey covData.2 st.last_coverage_percentages with
  | some key =>
    (some { status := "FAIL",
            reason := "Error validating test: \x27" ++ key ++ "\x27",
            exit_code := none }, st2)
  | none =>
    (some { status := "PASS", reason := "", exit_code := some exit_code },
     { st2 with current_coverage := covData.1,
                last_coverage_percentages := covData.2 })

/-- Lines 616-726: the coverage check after a passing run.  `st` is the
state at entry of the call (so `st.fileContent` is `original_content`),
`st1` the state after the spliced write. -/
def coveragePhase (st st1 : VState) (env : Env) (c : Candidate)
    (exit_code : Int) : Option Outcome × VState :=
  match env.coverageOutcome with
  | Except.error _msg =>
    -- Lines 662-690: the inner handler restores the baseline and returns
    -- FAIL with reason "Runtime error".
    (some { status := "FAIL", reason := "Runtime error", exit_code := some exit_code },
     { st1 with fileContent := st.fileContent,
                failed_test_runs := st1.failed_test_runs
                  ++ [{ code := c, error_message := "Coverage verification error" }] })
  | Except.ok covData =>
    if covData.1 ≤ st.current_coverage ∧ mutation_cov_increased = false then
      -- Lines 622-661: rollback, reason "Coverage did not increase".
      (some { status := "FAIL", reason := "Coverage did not increase",
              exit_code := some exit_code },
       { st1 with fileContent := st.fileContent,
                  failed_test_runs := st1.failed_test_runs
                    ++ [{ code := c, error_message := "Code coverage did not increase" }] })
    else acceptPhase st st1 c covData exit_code

/-- Lines 482-533 and onwards, after the spliced content has been written:
`res` is the `(exit_code, attempts run)` pair of the attempt loop.
When `num_attempts = 0` the loop body never runs, so `stdout`, `stderr` and
`time_of_test_command` are never bound; `exit_code` is still `0` (line 445),
hence control reaches line 618 where evaluating `time_of_test_command`
raises `NameError`; the inner handler restores the baseline and then itself
raises `NameError` on `stderr` while building `fail_details`, which the
outer handler (line 727) converts into a FAIL outcome — with the file
already restored and nothing appended to `failed_test_runs`. -/
def afterRun (st st1 : VState) (env : Env) (c : Candidate) (res : Int × Nat) :
    Option Outcome × VState :=
  if res.2 = 0 then
    (some { status := "FAIL",
            reason := "Error validating test: name \x27stderr\x27 is not defined",
            exit_code := none },
     { st1 with fileContent := st.fileContent })
  else if res.1 ≠ 0 then
    -- Lines 494-533: restore the baseline, summarize the failure
    -- (best-effort), append to failed_test_runs, return FAIL "Test failed".
    (some { status := "FAIL", reason := "Test failed", exit_code := some res.1 },
     { st1 with fileContent := st.fileContent,
                failed_test_runs := st1.failed_test_runs
                  ++ [{ code := c, error_message := env.errorSummary }] })
  else coveragePhase st st1 env c res.1

/-- The body of the guard of line 446: write the spliced content (lines
477-479), then run the attempts.  If `Runner.run_command` itself raises, the
outer handler (lines 727-742) returns FAIL with reason
`f"Error validating test: {e}"` and `exit_code = None` — note that it does
*not* restore the file, which keeps the spliced content. -/
def validateSpliced (st : VState) (env : Env) (c : Candidate) :
    Option Outcome × VState :=
  let st1 := { st with fileContent := spliceContent st c }
  match env.runOutcome with
  | Except.error msg =>
    (some { status := "FAIL", reason := "Error validating test: " ++ msg,
            exit_code := none }, st1)
  | Except.ok exits => afterRun st st1 env c (attemptLoop exits st.num_attempts)

/-- `UnitTestValidator.validate_test`.  Returns the outcome dict (or `none`
for the Python implicit `None` when the guard of line 446 is false and the
function falls off the end of the `try` block) together with the state after
the call. -/
def validateTest (st : VState) (env : Env) (c : Candidate) :
    Option Outcome × VState :=
  if spliceGuard st c then validateSpliced st env c else (none, st)

/-- A sequence of `validate_test` calls within one run, each with its own
environment and candidate, threading the validator state. -/
def runValidateSeq (st : VState) (calls : List (Env × Candidate)) : VState :=
  calls.foldl (fun s ec => (validateTest s ec.1 ec.2).2) st

/-! ### Agent loop decision logic (CoverAgent.run_test_gen) -/

/-- Lines 241-252: the per-iteration goal check.  With
`strict_mutation_score` both goals must be met to break out of the loop,
otherwise the coverage goal alone suffices. -/
def iterationGoalMet (strict_mutation_score : Bool)
    (current_coverage desired_coverage current_mutation_score desired_mutation_score : Rat) :
    Bool :=
  let coverage_goal_met := current_coverage ≥ desired_coverage / 100
  let mutation_goal_met := current_mutation_score ≥ desired_mutation_score
  if strict_mutation_score then
    decide coverage_goal_met && decide mutation_goal_met
  else decide coverage_goal_met

/-- Lines 254-280: the post-loop decision.  `0` stands for normal process
termination (no `sys.exit` call on that path), `2` and `3` for the two
`sys.exit` calls.  The exhaustion branch is an `elif` of the
coverage-goal-met check, so it is only reached when the coverage goal is
unmet. -/
def postLoopExitCode
    (current_coverage desired_coverage current_mutation_score desired_mutation_score : Rat)
    (strict_coverage strict_mutation_score : Bool)
    (iteration_count max_iterations : Nat) : Nat :=
  if current_coverage ≥ desired_coverage / 100 then 0
  else if iteration_count = max_iterations then
    if strict_coverage then 2
    else if strict_mutation_score && decide (current_mutation_score < desired_mutation_score)
      then 3
    else 0
  else 0

/-- The `while iteration_count < max_iterations` loop of lines 198-252,
reduced to its iteration count: `breakAfter i` is the goal check evaluated
after the iteration with index `i`.  Returns the final `iteration_count`. -/
def agentLoopCountGo (breakAfter : Nat → Bool) : Nat → Nat → Nat
  | 0, it => it
  | fuel + 1, it =>
    if breakAfter it then it + 1 else agentLoopCountGo breakAfter fuel (it + 1)

/-- The number of iterations the agent loop performs. -/
def agentLoopCount (breakAfter : Nat → Bool) (max_iterations : Nat) : Nat :=
  agentLoopCountGo breakAfter max_iterations 0

/-! ### Concrete inputs for witnesses and counterexamples -/

/-- A typical validator state: insertion line 1, import line 1, no extra
indentation, one command attempt, coverage fraction 0. -/
def wState : VState :=
  { relevant_line_number_to_insert_tests_after := some 1
    relevant_line_number_to_insert_imports_after := some 1
    test_headers_indentation := none
    num_attempts := 1
    current_coverage := 0
    current_mutation_score := 0
    last_coverage_percentages := []
    failed_test_runs := []
    fileContent := "line1\nline2" }

/-- A typical candidate with one import line. -/
def wCandidate : Candidate :=
  { test_code := "def test_x():\n    assert True"
    new_imports_code := "import x" }

/-- An environment where the command run passes and the new coverage
fraction is 1. -/
def wEnvPass : Env :=
  { runOutcome := Except.ok (fun _ => 0)
    coverageOutcome := Except.ok (1, [])
    errorSummary := "summary" }

/-- An environment where every command attempt exits with code 1. -/
def wEnvFail : Env :=
  { runOutcome := Except.ok (fun _ => 1)
    coverageOutcome := Except.ok (1, [])
    errorSummary := "summary" }

/-- An environment where `Runner.run_command` raises. -/
def wEnvBoom : Env :=
  { runOutcome := Except.error "boom"
    coverageOutcome := Except.ok (1, [])
    errorSummary := "summary" }

/-- An environment where the command run passes but
`post_process_coverage_report` raises. -/
def wEnvCovErr : Env :=
  { runOutcome := Except.ok (fun _ => 0)
    coverageOutcome := Except.error "oops"
    errorSummary := "summary" }

/-- An environment where the command run passes, the new coverage fraction
is 1, and the per-file mapping contains a file (`a.py`) that is absent from
the stored `last_coverage_percentages`. -/
def wEnvKeyErr : Env :=
  { runOutcome := Except.ok (fun _ => 0)
    coverageOutcome := Except.ok (1, [("a.py", 1)])
    errorSummary := "summary" }

/-- A candidate whose `test_code` is the empty string. -/
def wEmptyCandidate : Candidate :=
  { test_code := "", new_imports_code := "" }

/-! ### Helper lemmas -/

/-- Full characterization of the attempt loop from an arbitrary start index:
the start index never decreases, at most `fuel` further attempts run, the
final exit code is non-zero exactly when some executed attempt returned a
non-zero code, and every executed attempt but the last returned zero. -/
theorem attemptLoopGoSpec (exits : Nat → Int) :
    ∀ fuel i : Nat,
      i ≤ (attemptLoopGo exits fuel i 0).2 ∧
      (attemptLoopGo exits fuel i 0).2 ≤ i + fuel ∧
      ((attemptLoopGo exits fuel i 0).1 ≠ 0 ↔
        ∃ j, i ≤ j ∧ j < (attemptLoopGo exits fuel i 0).2 ∧ exits j ≠ 0) ∧
      (∀ j, i ≤ j → j + 1 < (attemptLoopGo exits fuel i 0).2 → exits j = 0) := by
  intro fuel
  induction fuel with
  | zero =>
    intro i
    simp only [attemptLoopGo]
    refine ⟨Nat.le_refl i, Nat.le_refl i, ?_, ?_⟩
    · constructor
      · intro h; exact absurd rfl h
      · rintro ⟨j, hj1, hj2, _⟩; omega
    · intro j hj1 hj2; omega
  | succ f ih =>
    intro i
    by_cases h : exits i = 0
    · have hred : attemptLoopGo exits (f + 1) i 0 = attemptLoopGo exits f (i + 1) 0 := by
        simp [attemptLoopGo, h]
      rw [hred]
      obtain ⟨ih1, ih2, ih3, ih4⟩ := ih (i + 1)
      refine ⟨by omega, by omega, ?_, ?_⟩
      · rw [ih3]
        constructor
        · rintro ⟨j, hj1, hj2, hj3⟩; exact ⟨j, by omega, hj2, hj3⟩
        · rintro ⟨j, hj1, hj2, hj3⟩
          rcases Nat.eq_or_lt_of_le hj1 with heq | hlt
          · exact absurd h (by rw [heq]; exact hj3)
          · exact ⟨j, by omega, hj2, hj3⟩
      · intro j hj1 hj2
        rcases Nat.eq_or_lt_of_le hj1 with heq | hlt
        · rw [← heq]; exact h
        · exact ih4 j (by omega) hj2
    · have hred : attemptLoopGo exits (f + 1) i 0 = (exits i, i + 1) := by
        simp [attemptLoopGo, h]
      rw [hred]
      refine ⟨by omega, by omega, ?_, ?_⟩
      · constructor
        · intro _; exact ⟨i, Nat.le_refl i, by omega, h⟩
        · intro _; exact h
      · intro j hj1 hj2; omega

/-- A non-zero final exit code means at least one attempt was executed. -/
theorem attemptLoop_runs_pos (exits : Nat → Int) (n : Nat)
    (h : (attemptLoop exits n).1 ≠ 0) : (attemptLoop exits n).2 ≠ 0 := by
  obtain ⟨-, -, h3, -⟩ := attemptLoopGoSpec exits n 0
  obtain ⟨j, -, hj2, -⟩ := h3.mp h
  unfold attemptLoop
  omega

/-- If every attempt returns exit code zero, the loop runs all `n` attempts
and ends with exit code zero. -/
theorem attemptLoop_all_zero (exits : Nat → Int) (n : Nat)
    (h : ∀ i, i < n → exits i = 0) : attemptLoop exits n = (0, n) := by
  unfold attemptLoop
  suffices hgen : ∀ fuel i, (∀ j, i ≤ j → j < i + fuel → exits j = 0) →
      attemptLoopGo exits fuel i 0 = (0, i + fuel) by
    have := hgen n 0 (by intro j _ hj; exact h j (by omega))
    simpa using this
  intro fuel
  induction fuel with
  | zero => intro i _; simp [attemptLoopGo]
  | succ f ih =>
    intro i hz
    have hi : exits i = 0 := hz i (Nat.le_refl i) (by omega)
    have : attemptLoopGo exits (f + 1) i 0 = attemptLoopGo exits f (i + 1) 0 := by
      simp [attemptLoopGo, hi]
    rw [this, ih (i + 1) (by intro j hj1 hj2; exact hz j (by omega) (by omega))]
    have : i + 1 + f = i + (f + 1) := by omega
    rw [this]

/-- `validate_test` never decreases the coverage snapshot: the only write to
`current_coverage` (line 707) is guarded by the failed strict comparison of
line 622. -/
theorem validateTest_coverage_le (st : VState) (env : Env) (c : Candidate) :
    st.current_coverage ≤ (validateTest st env c).2.current_coverage := by
  unfold validateTest
  split
  · unfold validateSpliced
    rcases henv : env.runOutcome with msg | exits
    · simp
    · simp only []
      unfold afterRun
      split
      · simp
      · split
        · simp
        · unfold coveragePhase
          rcases hcov : env.coverageOutcome with m | cov
          · simp
          · simp only []
            split
            · simp
            case isFalse hacc =>
              unfold acceptPhase
              split
              · simp
              · simp only []
                have h2 : mutation_cov_increased = false := rfl
                have h3 : ¬ cov.1 ≤ st.current_coverage := fun hle => hacc ⟨hle, h2⟩
                simpa using le_of_lt (lt_of_not_le h3)
  · simp

/-- `validate_test` never touches `current_mutation_score`: the only code
that would update it (lines 536-612) is commented out. -/
theorem validateTest_mutation_eq (st : VState) (env : Env) (c : Candidate) :
    (validateTest st env c).2.current_mutation_score = st.current_mutation_score := by
  unfold validateTest
  split
  · unfold validateSpliced
    rcases henv : env.runOutcome with msg | exits
    · simp
    · simp only []
      unfold afterRun
      split
      · simp
      · split
        · simp
        · unfold coveragePhase
          rcases hcov : env.coverageOutcome with m | cov
          · simp
          · simp only []
            split
            · simp
            · unfold acceptPhase
              split <;> simp
  · simp

/-- Threading a sequence of calls never changes the mutation score. -/
theorem runValidateSeq_mutation_eq (calls : List (Env × Candidate)) :
    ∀ st : VState, (runValidateSeq st calls).current_mutation_score = st.current_mutation_score := by
  induction calls with
  | nil => intro st; simp [runValidateSeq]
  | cons hd tl ih =>
    intro st
    have hstep : runValidateSeq st (hd :: tl) = runValidateSeq (validateTest st hd.1 hd.2).2 tl := by
      simp [runValidateSeq]
    rw [hstep, ih, validateTest_mutation_eq]

/-- The agent loop with a break condition that never fires performs exactly
`fuel` further iterations. -/
theorem agentLoopCountGo_never (b : Nat → Bool) (hb : ∀ i, b i = false) :
    ∀ fuel it : Nat, agentLoopCountGo b fuel it = it + fuel := by
  intro fuel
  induction fuel with
  | zero => intro it; simp [agentLoopCountGo]
  | succ f ih =>
    intro it
    unfold agentLoopCountGo
    rw [hb it]
    simp only [Bool.false_eq_true, if_false]
    rw [ih (it + 1)]
    omega

/-! ### Claims -/

/-- C9 (confirmed): the test command is run at most `num_attempts` times,
the final exit code is non-zero exactly when one of the executed attempts
exited non-zero, and every executed attempt before the last one exited zero
(the loop stops at the first non-zero exit code). -/
theorem C9_attempt_loop (exits : Nat → Int) (n : Nat) :
    (attemptLoop exits n).2 ≤ n ∧
    ((attemptLoop exits n).1 ≠ 0 ↔ ∃ i, i < (attemptLoop exits n).2 ∧ exits i ≠ 0) ∧
    (∀ j, j + 1 < (attemptLoop exits n).2 → exits j = 0) := by
  obtain ⟨h1, h2, h3, h4⟩ := attemptLoopGoSpec exits n 0
  unfold attemptLoop
  refine ⟨by simpa using h2, ?_, ?_⟩
  · rw [h3]
    constructor
    · rintro ⟨j, -, hj2, hj3⟩; exact ⟨j, hj2, hj3⟩
    · rintro ⟨j, hj1, hj2⟩; exact ⟨j, Nat.zero_le j, hj1, hj2⟩
  · intro j hj
    exact h4 j (Nat.zero_le j) hj

/-- C7 (confirmed): across any sequence of `validate_test` calls within one
run, `current_coverage` is non-decreasing — it is replaced only on the
accept path, which requires the strict comparison of line 622 to fail. -/
theorem C7_monotonic_coverage (st : VState) (calls : List (Env × Candidate)) :
    st.current_coverage ≤ (runValidateSeq st calls).current_coverage := by
  induction calls generalizing st with
  | nil => simp [runValidateSeq]
  | cons hd tl ih =>
    have hstep : runValidateSeq st (hd :: tl) = runValidateSeq (validateTest st hd.1 hd.2).2 tl := by
      simp [runValidateSeq]
    rw [hstep]
    exact le_trans (validateTest_coverage_le st hd.1 hd.2) (ih (validateTest st hd.1 hd.2).2)

/-- C10 (confirmed): `current_mutation_score` starts at 0 (line 139) and no
active code path updates it, so with `strict_mutation_score` set and a
positive `desired_mutation_score` the per-iteration goal check of lines
241-252 never succeeds and the agent loop runs all `max_iterations`
iterations. -/
theorem C10_mutation_score_stuck (mx : Nat) (covSeq : Nat → Rat) (dc dm : Rat)
    (hdm : 0 < dm) :
    (∀ (st : VState) (calls : List (Env × Candidate)),
        st.current_mutation_score = 0 →
        (runValidateSeq st calls).current_mutation_score = 0) ∧
    (∀ cc : Rat, iterationGoalMet true cc dc 0 dm = false) ∧
    agentLoopCount (fun i => iterationGoalMet true (covSeq i) dc 0 dm) mx = mx := by
  have hmut : ∀ cc : Rat, iterationGoalMet true cc dc 0 dm = false := by
    intro cc
    unfold iterationGoalMet
    have : decide ((0:Rat) ≥ dm) = false :=
      decide_eq_false_iff_not.mpr (not_le.mpr hdm)
    simp [this]
  refine ⟨?_, hmut, ?_⟩
  · intro st calls h0
    rw [runValidateSeq_mutation_eq, h0]
  · unfold agentLoopCount
    rw [agentLoopCountGo_never _ (fun i => hmut (covSeq i))]
    omega

/-- Witness for C10 at `max_iterations = 5`, desired mutation score 70. -/
theorem C10_witness :
    (∀ (st : VState) (calls : List (Env × Candidate)),
        st.current_mutation_score = 0 →
        (runValidateSeq st calls).current_mutation_score = 0) ∧
    (∀ cc : Rat, iterationGoalMet true cc 90 0 70 = false) ∧
    agentLoopCount (fun i => iterationGoalMet true ((fun _ : Nat => (1:Rat)) i) 90 0 70) 5 = 5 :=
  C10_mutation_score_stuck 5 (fun _ => 1) 90 70 (by decide)

/-- C6 counterexample: strict_mutation_score is set, desired mutation score
70 is unmet (score 0), strict_coverage is unset, and the iteration budget is
exhausted without meeting the goals (the goal check is false because of the
mutation goal), yet `run_test_gen` reaches the coverage-met logging branch
of line 255 and the process exits with status 0, not 3: the `sys.exit(3)`
call sits under the `elif` of line 266, which requires the coverage goal to
be unmet. -/
theorem C6_counterexample :
    iterationGoalMet true 1 90 0 70 = false ∧
    (0:Rat) < 70 ∧
    postLoopExitCode 1 90 0 70 false true 1 1 = 0 := by
  refine ⟨?_, by norm_num, ?_⟩
  · unfold iterationGoalMet
    have h : decide ((0:Rat) ≥ 70) = false := by
      apply decide_eq_false_iff_not.mpr
      norm_num
    simp [h]
  · unfold postLoopExitCode
    rw [if_pos (by norm_num)]

/-- C6 (amended): the exit-code mapping of lines 254-280 holds only below
the coverage goal — the process exits 2 exactly when the coverage goal is
unmet, the budget is exhausted and strict_coverage is set; it exits 3
exactly when the coverage goal is unmet, the budget is exhausted,
strict_coverage is unset, strict_mutation_score is set and the mutation
goal is unmet; in every other case (including a met coverage goal with an
unmet strict mutation goal) it terminates with status 0.  Exit code 3 is
reachable under those conditions. -/
theorem C6_exit_codes (cc dc cm dm : Rat) (sc sm : Bool) (it mx : Nat) :
    (postLoopExitCode cc dc cm dm sc sm it mx = 2 ↔
      ¬(cc ≥ dc / 100) ∧ it = mx ∧ sc = true) ∧
    (postLoopExitCode cc dc cm dm sc sm it mx = 3 ↔
      ¬(cc ≥ dc / 100) ∧ it = mx ∧ sc = false ∧ sm = true ∧ cm < dm) ∧
    (postLoopExitCode cc dc cm dm sc sm it mx = 0 ∨
      postLoopExitCode cc dc cm dm sc sm it mx = 2 ∨
      postLoopExitCode cc dc cm dm sc sm it mx = 3) ∧
    postLoopExitCode 0 90 0 70 false true 1 1 = 3 := by
  refine ⟨?_, ?_, ?_, ?_⟩
  · unfold postLoopExitCode
    split_ifs with h1 h2 h3 <;> simp_all
  · unfold postLoopExitCode
    split_ifs with h1 h2 h3 h4 <;> simp_all
  · unfold postLoopExitCode
    split_ifs <;> simp
  · unfold postLoopExitCode
    rw [if_neg (by norm_num), if_pos rfl, if_neg (by simp), if_pos (by norm_num)]

/-- The normalized test code of line 444 is never the empty string, so the
guard of line 446 reduces to the truthiness of the insertion line. -/
theorem testCodeIndented_ne (st : VState) (tc : String) :
    testCodeIndented st tc ≠ "" := by
  unfold testCodeIndented
  intro h
  have h2 := congrArg String.data h
  simp [String.data_append] at h2

/-- The splice guard is exactly the truthiness of the test-insertion line. -/
theorem spliceGuard_eq (st : VState) (c : Candidate) :
    spliceGuard st c = pyTruthyInt st.relevant_line_number_to_insert_tests_after := by
  unfold spliceGuard
  rw [decide_eq_true (testCodeIndented_ne st (pyRstrip c.test_code)), Bool.true_and]

/-- Reduction of `validate_test` when the guard holds and the runner returns
exit codes without raising. -/
theorem validateTest_ok_reduce (st : VState) (env : Env) (c : Candidate)
    (exits : Nat → Int) (hg : spliceGuard st c = true)
    (hrun : env.runOutcome = Except.ok exits) :
    validateTest st env c =
      afterRun st { st with fileContent := spliceContent st c } env c
        (attemptLoop exits st.num_attempts) := by
  unfold validateTest
  rw [if_pos hg]
  unfold validateSpliced
  rw [hrun]

/-- Reduction of `validate_test` when the guard holds and the runner raises:
the outer handler returns FAIL with reason `"Error validating test: ..."`
while the file keeps the spliced content. -/
theorem validateTest_err_reduce (st : VState) (env : Env) (c : Candidate)
    (msg : String) (hg : spliceGuard st c = true)
    (hrun : env.runOutcome = Except.error msg) :
    validateTest st env c =
      (some { status := "FAIL", reason := "Error validating test: " ++ msg,
              exit_code := none },
       { st with fileContent := spliceContent st c }) := by
  unfold validateTest
  rw [if_pos hg]
  unfold validateSpliced
  rw [hrun]

/-- When the cleaned imports text is empty, no import lines are injected. -/
theorem importLinesInjected_of_empty (st : VState) (c : Candidate)
    (h : cleanAdditionalImports c.new_imports_code = "") :
    importLinesInjected st c = 0 := by
  unfold importLinesInjected spliceParts
  simp only [h]
  simp

/-- C2 (confirmed): when the command run exits non-zero, `validate_test`
restores the file to its content at the start of the call, returns FAIL with
reason "Test failed", and appends the candidate (with the best-effort
diagnostic summary) to the failed-test list of the run. -/
theorem C2_failed_run_rolls_back (st : VState) (env : Env) (c : Candidate)
    (exits : Nat → Int)
    (hg : spliceGuard st c = true)
    (hrun : env.runOutcome = Except.ok exits)
    (hfail : (attemptLoop exits st.num_attempts).1 ≠ 0) :
    (validateTest st env c).1 =
      some { status := "FAIL", reason := "Test failed",
             exit_code := some (attemptLoop exits st.num_attempts).1 } ∧
    (validateTest st env c).2.fileContent = st.fileContent ∧
    (validateTest st env c).2.failed_test_runs =
      st.failed_test_runs ++ [{ code := c, error_message := env.errorSummary }] := by
  have hruns : (attemptLoop exits st.num_attempts).2 ≠ 0 :=
    attemptLoop_runs_pos exits st.num_attempts hfail
  rw [validateTest_ok_reduce st env c exits hg hrun]
  unfold afterRun
  rw [if_neg hruns, if_pos hfail]
  exact ⟨rfl, rfl, rfl⟩

/-- Witness for C2 at a concrete state, candidate and failing runner. -/
theorem C2_witness :
    (validateTest wState wEnvFail wCandidate).1 =
      some { status := "FAIL", reason := "Test failed",
             exit_code := some (attemptLoop (fun _ => 1) wState.num_attempts).1 } ∧
    (validateTest wState wEnvFail wCandidate).2.fileContent = wState.fileContent ∧
    (validateTest wState wEnvFail wCandidate).2.failed_test_runs =
      wState.failed_test_runs ++ [{ code := wCandidate, error_message := wEnvFail.errorSummary }] :=
  C2_failed_run_rolls_back wState wEnvFail wCandidate (fun _ => 1) (by decide) rfl (by decide)

/-- C1 counterexample: when `Runner.run_command` raises after the spliced
write (here modelled by the runner raising `boom`), the exception is caught
by the outer handler of line 727, which returns FAIL with reason
`"Error validating test: boom"` — not `"Runtime error"` — and does not
restore the test file, leaving the spliced-but-uncommitted content on
disk. -/
theorem C1_counterexample :
    (validateTest wState wEnvBoom wCandidate).1 =
      some { status := "FAIL", reason := "Error validating test: boom",
             exit_code := none } ∧
    (validateTest wState wEnvBoom wCandidate).2.fileContent ≠ wState.fileContent := by
  constructor
  · decide
  · decide

/-- C1 (amended): only an unexpected error raised during the
coverage-verification step (the inner `try` of lines 617-690) is converted
to a FAIL outcome with reason "Runtime error" with the test file restored to
the baseline; an unexpected error raised during the command run (or any
other step outside that inner `try`) is caught by the outer handler, which
returns FAIL with reason `"Error validating test: <error>"` without
restoring the file, so the spliced content stays on disk (see the
counterexample). -/
theorem C1_runtime_error_on_coverage_error (st : VState) (env : Env)
    (c : Candidate) (exits : Nat → Int) (msg : String)
    (hg : spliceGuard st c = true)
    (hrun : env.runOutcome = Except.ok exits)
    (hpass : (attemptLoop exits st.num_attempts).1 = 0)
    (hruns : (attemptLoop exits st.num_attempts).2 ≠ 0)
    (hcov : env.coverageOutcome = Except.error msg) :
    (validateTest st env c).1 =
      some { status := "FAIL", reason := "Runtime error", exit_code := some 0 } ∧
    (validateTest st env c).2.fileContent = st.fileContent ∧
    (validateTest st env c).2.failed_test_runs =
      st.failed_test_runs ++ [{ code := c, error_message := "Coverage verification error" }] := by
  rw [validateTest_ok_reduce st env c exits hg hrun]
  unfold afterRun
  rw [if_neg hruns, if_neg (not_ne_iff.mpr hpass)]
  unfold coveragePhase
  rw [hcov, hpass]
  exact ⟨rfl, rfl, rfl⟩

/-- Witness for the amended C1: a concrete coverage-verification error. -/
theorem C1_witness :
    (validateTest wState wEnvCovErr wCandidate).1 =
      some { status := "FAIL", reason := "Runtime error", exit_code := some 0 } ∧
    (validateTest wState wEnvCovErr wCandidate).2.fileContent = wState.fileContent ∧
    (validateTest wState wEnvCovErr wCandidate).2.failed_test_runs =
      wState.failed_test_runs
        ++ [{ code := wCandidate, error_message := "Coverage verification error" }] :=
  C1_runtime_error_on_coverage_error wState wEnvCovErr wCandidate (fun _ => 0) "oops"
    (by decide) rfl (by decide) (by decide) rfl

/-- C3 counterexample.  First part: a candidate with empty `test_code` (and
a truthy insertion line) does not short-circuit — the normalization of line
444 turns the empty code into `"\n\n"`, the guard of line 446 passes, and
the file is written (here the write is observable because the runner then
raises, so nothing restores it); the returned reason comes from the outer handler,
never "no-op insertion" (a string that appears nowhere in the code).  Second
part: when the insertion line is falsy (here `0`), no write occurs but the
call returns `None`, not a FAIL outcome. -/
theorem C3_counterexample :
    (validateTest wState wEnvBoom wEmptyCandidate).2.fileContent ≠ wState.fileContent ∧
    (validateTest wState wEnvBoom wEmptyCandidate).1 =
      some { status := "FAIL", reason := "Error validating test: boom",
             exit_code := none } ∧
    (validateTest { wState with relevant_line_number_to_insert_tests_after := some 0 }
        wEnvPass wCandidate).1 = none := by
  refine ⟨by decide, by decide, by decide⟩

/-- C3 (amended): only a falsy test-insertion line short-circuits
`validate_test` before any file write, and in that case the function returns
the Python `None` (no structured FAIL outcome, no reason "no-op insertion");
an empty `test_code` does not short-circuit because line 444 normalizes the
code to `"\n\n"` before the guard of line 446 tests it. -/
theorem C3_falsy_line_no_write (st : VState) (env : Env) (c : Candidate)
    (h : pyTruthyInt st.relevant_line_number_to_insert_tests_after = false) :
    validateTest st env c = (none, st) := by
  unfold validateTest
  rw [spliceGuard_eq, h]
  simp

/-- Witness for the amended C3: a `None` insertion line. -/
theorem C3_witness :
    validateTest { wState with relevant_line_number_to_insert_tests_after := none }
        wEnvPass wCandidate
      = (none, { wState with relevant_line_number_to_insert_tests_after := none }) :=
  C3_falsy_line_no_write
    { wState with relevant_line_number_to_insert_tests_after := none }
    wEnvPass wCandidate (by decide)

/-- C4 counterexample: with a falsy insertion line, `validate_test` returns
`None` — the Agent Loop receives a missing result instead of a structured
outcome (and `run_test_gen` would then crash at line 211 subscripting it). -/
theorem C4_counterexample :
    (validateTest { wState with relevant_line_number_to_insert_tests_after := none }
        wEnvPass wCandidate).1 = none := by
  decide

/-- C4 (amended): `validate_test` returns a structured outcome whose status
is PASS or FAIL whenever the test-insertion line is truthy (any exception is
absorbed by the handlers and converted to a FAIL outcome); with a falsy
insertion line it instead returns `None`. -/
theorem C4_structured_outcome (st : VState) (env : Env) (c : Candidate)
    (h : pyTruthyInt st.relevant_line_number_to_insert_tests_after = true) :
    ∃ o, (validateTest st env c).1 = some o ∧
      (o.status = "PASS" ∨ o.status = "FAIL") := by
  have hg : spliceGuard st c = true := by rw [spliceGuard_eq]; exact h
  rcases henv : env.runOutcome with msg | exits
  · rw [validateTest_err_reduce st env c msg hg henv]
    exact ⟨_, rfl, Or.inr rfl⟩
  · rw [validateTest_ok_reduce st env c exits hg henv]
    unfold afterRun
    by_cases h2 : (attemptLoop exits st.num_attempts).2 = 0
    · rw [if_pos h2]
      exact ⟨_, rfl, Or.inr rfl⟩
    · rw [if_neg h2]
      by_cases h3 : (attemptLoop exits st.num_attempts).1 ≠ 0
      · rw [if_pos h3]
        exact ⟨_, rfl, Or.inr rfl⟩
      · rw [if_neg h3]
        unfold coveragePhase
        rcases hcov : env.coverageOutcome with m | cov
        · exact ⟨_, rfl, Or.inr rfl⟩
        · dsimp only
          by_cases hle : cov.1 ≤ st.current_coverage ∧ mutation_cov_increased = false
          · rw [if_pos hle]
            exact ⟨_, rfl, Or.inr rfl⟩
          · rw [if_neg hle]
            unfold acceptPhase
            rcases hkey : firstMissingKey cov.2 st.last_coverage_percentages with _ | key
            · exact ⟨_, rfl, Or.inl rfl⟩
            · exact ⟨_, rfl, Or.inr rfl⟩

/-- Witness for the amended C4. -/
theorem C4_witness :
    ∃ o, (validateTest wState wEnvPass wCandidate).1 = some o ∧
      (o.status = "PASS" ∨ o.status = "FAIL") :=
  C4_structured_outcome wState wEnvPass wCandidate (by decide)

/-- C5 counterexample: the command run passes and the coverage measurement
succeeds with the new overall fraction `1` strictly above the current `0`,
yet the candidate is not accepted: the new per-file mapping reports a file
(`a.py`) unseen in `last_coverage_percentages`, so the logging loop of line
699 raises `KeyError` and the outer handler returns a FAIL outcome instead
of PASS (with the insertion line already advanced and the spliced content
still on disk). -/
theorem C5_counterexample :
    wState.current_coverage < 1 ∧
    (validateTest wState wEnvKeyErr wCandidate).1 =
      some { status := "FAIL", reason := "Error validating test: \x27a.py\x27",
             exit_code := none } := by
  exact ⟨by decide, by decide⟩

/-- C5 (amended): given a passing run and a successful coverage measurement,
the candidate is accepted (PASS) iff the new overall fraction strictly
exceeds the current one (the mutation signal `mutation_cov_increased` is
constantly false, so it never rescues a candidate) AND every file of the new
per-file mapping already appears in the stored one (otherwise the logging
loop of line 699 raises and a FAIL outcome is returned instead); when the
new fraction is less than or equal to the current one, the baseline is
restored, the candidate is appended to the failed-test list, and FAIL with
reason "Coverage did not increase" is returned — equal coverage is a
rejection. -/
theorem C5_acceptance_rule (st : VState) (env : Env) (c : Candidate)
    (exits : Nat → Int) (newCov : Rat) (newP : List (String × Rat))
    (hg : spliceGuard st c = true)
    (hrun : env.runOutcome = Except.ok exits)
    (hpass : (attemptLoop exits st.num_attempts).1 = 0)
    (hruns : (attemptLoop exits st.num_attempts).2 ≠ 0)
    (hcov : env.coverageOutcome = Except.ok (newCov, newP)) :
    ((validateTest st env c).1 =
        some { status := "PASS", reason := "", exit_code := some 0 } ↔
      (st.current_coverage < newCov ∨ mutation_cov_increased = true) ∧
        firstMissingKey newP st.last_coverage_percentages = none) ∧
    (newCov ≤ st.current_coverage →
      (validateTest st env c).1 =
        some { status := "FAIL", reason := "Coverage did not increase",
               exit_code := some 0 } ∧
      (validateTest st env c).2.fileContent = st.fileContent ∧
      (validateTest st env c).2.failed_test_runs =
        st.failed_test_runs
          ++ [{ code := c, error_message := "Code coverage did not increase" }]) := by
  rw [validateTest_ok_reduce st env c exits hg hrun]
  unfold afterRun
  rw [if_neg hruns, if_neg (not_ne_iff.mpr hpass)]
  unfold coveragePhase
  rw [hcov, hpass]
  dsimp only
  by_cases hle : newCov ≤ st.current_coverage
  · rw [if_pos ⟨hle, rfl⟩]
    dsimp only
    constructor
    · constructor
      · intro heq
        simp at heq
      · rintro ⟨hgt | hmci, -⟩
        · exact absurd hle (not_le.mpr hgt)
        · exact absurd hmci (by decide)
    · intro _
      exact ⟨rfl, rfl, rfl⟩
  · rw [if_neg (fun hand => hle hand.1)]
    unfold acceptPhase
    rcases hkey : firstMissingKey newP st.last_coverage_percentages with _ | key
    · dsimp only
      constructor
      · constructor
        · intro _
          exact ⟨Or.inl (not_le.mp hle), rfl⟩
        · intro _
          rfl
      · intro hc
        exact absurd hc hle
    · dsimp only
      constructor
      · constructor
        · intro heq
          simp at heq
        · rintro ⟨-, hnone⟩
          simp at hnone
      · intro hc
        exact absurd hc hle

/-- Witness for the amended C5: a passing candidate whose new coverage 1
exceeds the current 0 with an empty per-file mapping is accepted. -/
theorem C5_witness :
    ((validateTest wState wEnvPass wCandidate).1 =
        some { status := "PASS", reason := "", exit_code := some 0 } ↔
      (wState.current_coverage < 1 ∨ mutation_cov_increased = true) ∧
        firstMissingKey [] wState.last_coverage_percentages = none) ∧
    ((1:Rat) ≤ wState.current_coverage →
      (validateTest wState wEnvPass wCandidate).1 =
        some { status := "FAIL", reason := "Coverage did not increase",
               exit_code := some 0 } ∧
      (validateTest wState wEnvPass wCandidate).2.fileContent = wState.fileContent ∧
      (validateTest wState wEnvPass wCandidate).2.failed_test_runs =
        wState.failed_test_runs
          ++ [{ code := wCandidate, error_message := "Code coverage did not increase" }]) :=
  C5_acceptance_rule wState wEnvPass wCandidate (fun _ => 0) 1 []
    (by decide) rfl (by decide) (by decide) rfl

/-- C8 (confirmed): when `validate_test` accepts a candidate (returns PASS),
the test-insertion line is advanced by exactly the number of import lines
that were actually injected (lines 694-696); when no import lines were
injected — no import insertion point, empty imports, or imports already
present verbatim — that number is 0 and the line is unchanged. -/
theorem C8_insertion_advancement (st : VState) (env : Env) (c : Candidate)
    (o : Outcome)
    (h : (validateTest st env c).1 = some o)
    (hp : o.status = "PASS") :
    (∃ v, st.relevant_line_number_to_insert_tests_after = some v ∧
      (validateTest st env c).2.relevant_line_number_to_insert_tests_after =
        some (v + (importLinesInjected st c : Int))) ∧
    (cleanAdditionalImports c.new_imports_code = "" →
      importLinesInjected st c = 0) := by
  refine ⟨?_, fun hh => importLinesInjected_of_empty st c hh⟩
  by_cases hg : spliceGuard st c = true
  case neg =>
    exfalso
    unfold validateTest at h
    rw [if_neg hg] at h
    simp at h
  case pos =>
    have htr : pyTruthyInt st.relevant_line_number_to_insert_tests_after = true := by
      rw [spliceGuard_eq] at hg
      exact hg
    rcases hrl : st.relevant_line_number_to_insert_tests_after with _ | v
    · rw [hrl] at htr
      simp [pyTruthyInt] at htr
    · refine ⟨v, rfl, ?_⟩
      rcases henv : env.runOutcome with msg | exits
      · exfalso
        rw [validateTest_err_reduce st env c msg hg henv] at h
        rw [← Option.some.inj h] at hp
        simp at hp
      · rw [validateTest_ok_reduce st env c exits hg henv] at h ⊢
        unfold afterRun at h ⊢
        by_cases h2 : (attemptLoop exits st.num_attempts).2 = 0
        · exfalso
          rw [if_pos h2] at h
          rw [← Option.some.inj h] at hp
          simp at hp
        · rw [if_neg h2] at h ⊢
          by_cases h3 : (attemptLoop exits st.num_attempts).1 ≠ 0
          · exfalso
            rw [if_pos h3] at h
            rw [← Option.some.inj h] at hp
            simp at hp
          · rw [if_neg h3] at h ⊢
            unfold coveragePhase at h ⊢
            rcases hcov : env.coverageOutcome with m | cov
            · exfalso
              rw [hcov] at h
              dsimp only at h
              rw [← Option.some.inj h] at hp
              simp at hp
            · rw [hcov] at h
              dsimp only at h ⊢
              by_cases hle : cov.1 ≤ st.current_coverage ∧ mutation_cov_increased = false
              · exfalso
                rw [if_pos hle] at h
                rw [← Option.some.inj h] at hp
                simp at hp
              · rw [if_neg hle] at h ⊢
                unfold acceptPhase at h ⊢
                rcases hkey : firstMissingKey cov.2 st.last_coverage_percentages with _ | key
                · dsimp only
                  rw [hrl]
                  rfl
                · dsimp only
                  rw [hrl]
                  rfl

/-- Witness for C8: the accepted `wCandidate` injects exactly one import
line, advancing the insertion line from 1 to 2. -/
theorem C8_witness :
    (∃ v, wState.relevant_line_number_to_insert_tests_after = some v ∧
      (validateTest wState wEnvPass wCandidate).2.relevant_line_number_to_insert_tests_after =
        some (v + (importLinesInjected wState wCandidate : Int))) ∧
    (cleanAdditionalImports wCandidate.new_imports_code = "" →
      importLinesInjected wState wCandidate = 0) :=
  C8_insertion_advancement wState wEnvPass wCandidate
    { status := "PASS", reason := "", exit_code := some 0 } (by decide) rfl
